import Mathlib

/- Verification of the passkey-based account-abstraction bridge
   (WebAuthn credential acquisition, signature codec, signer adapter).
   Pure functions of the TypeScript sources are shallowly embedded as
   Lean functions; bytes are values of type Nat, byte buffers are of
   type List Nat, JavaScript strings are values of type String. -/

namespace PasskeysDemo

/- ===== basic byte and text helpers ===== -/

/-- Value of a hexadecimal digit character; any other character maps to 0
(mirrors how Number.parseInt NaN results are stored into a typed array as 0). -/
def hexCharVal (c : Char) : Nat :=
  if '0' ≤ c && c ≤ '9' then c.toNat - 48
  else if 'a' ≤ c && c ≤ 'f' then c.toNat - 87
  else if 'A' ≤ c && c ≤ 'F' then c.toNat - 55
  else 0

/-- Decide whether a character is a hexadecimal digit. -/
def isHexChar (c : Char) : Bool :=
  ('0' ≤ c && c ≤ '9') || ('a' ≤ c && c ≤ 'f') || ('A' ≤ c && c ≤ 'F')

/-- Decide whether a string consists only of hexadecimal digits. -/
def isHexString (s : String) : Bool := s.data.all isHexChar

/-- Remove a leading "0x" from a string, if present. -/
def strip0x (s : String) : String :=
  match s.data with
  | '0' :: 'x' :: rest => ⟨rest⟩
  | _ => s

/-- Successive pairs of hex digits to bytes (an unpaired trailing digit is
dropped). -/
def hexPairsToBytes : List Char → List Nat
  | a :: b :: rest => (hexCharVal a * 16 + hexCharVal b) :: hexPairsToBytes rest
  | _ => []

/-- Modelled from the spec: hexStringToUint8Array (utils.ts, not under src/)
decodes a hex string, with an optional 0x prefix, into its raw bytes. -/
def hexStringToUint8Array (s : String) : List Nat :=
  hexPairsToBytes (strip0x s).data

/-- Hexadecimal digit character (lowercase). -/
def hexDigitChar (n : Nat) : Char :=
  (("0123456789abcdef" : String).data).getD n '0'

/-- Two lowercase hex digits of one byte. -/
def byteToHexPair (b : Nat) : List Char :=
  [hexDigitChar (b / 16 % 16), hexDigitChar (b % 16)]

/-- Modelled from the spec: uint8ArrayToHexString (utils.ts, not under src/)
renders raw bytes as a 0x-prefixed lowercase hex string. -/
def uint8ArrayToHexString (bs : List Nat) : String :=
  ⟨'0' :: 'x' :: (bs.map byteToHexPair).flatten⟩

/- ===== base64 and base64url ===== -/

/-- The standard base64 alphabet. -/
def b64Alphabet : List Char :=
  ("ABCDEFGHIJKLMNOPQRSTUVWXYZabcdefghijklmnopqrstuvwxyz0123456789+/" : String).data

/-- Character of a 6-bit value. -/
def b64Chr (n : Nat) : Char := b64Alphabet.getD n 'A'

/-- Value of a base64 alphabet character (others map to 0; valid inputs
never hit that default). -/
def b64Val (c : Char) : Nat :=
  if 'A' ≤ c && c ≤ 'Z' then c.toNat - 65
  else if 'a' ≤ c && c ≤ 'z' then c.toNat - 71
  else if '0' ≤ c && c ≤ '9' then c.toNat + 4
  else if c = '+' then 62
  else if c = '/' then 63
  else 0

/-- Standard base64 encoding of a byte list, with '=' padding. -/
def b64EncodeCore : List Nat → List Char
  | b1 :: b2 :: b3 :: rest =>
    b64Chr (b1 / 4) :: b64Chr (b1 % 4 * 16 + b2 / 16) ::
    b64Chr (b2 % 16 * 4 + b3 / 64) :: b64Chr (b3 % 64) :: b64EncodeCore rest
  | [b1, b2] => [b64Chr (b1 / 4), b64Chr (b1 % 4 * 16 + b2 / 16), b64Chr (b2 % 16 * 4), '=']
  | [b1] => [b64Chr (b1 / 4), b64Chr (b1 % 4 * 16), '=', '=']
  | [] => []

/-- Regroup 6-bit values into bytes (inverse direction of base64). -/
def b64Group : List Nat → List Nat
  | a :: b :: c :: d :: rest =>
    (a * 4 + b / 16) :: (b % 16 * 16 + c / 4) :: (c % 4 * 64 + d) :: b64Group rest
  | [a, b, c] => [a * 4 + b / 16, b % 16 * 16 + c / 4]
  | [a, b] => [a * 4 + b / 16]
  | _ => []

/-- Standard base64 decoding of a character list ('=' padding ignored). -/
def b64DecodeCore (cs : List Char) : List Nat :=
  b64Group ((cs.filter (fun c => c ≠ '=')).map b64Val)

/-- Modelled from the spec: b64ToBytes (utils.ts, not under src/) decodes a
string in URL-safe base64 without padding (standard base64 also accepted)
into raw bytes. -/
def b64ToBytes (s : String) : List Nat :=
  b64DecodeCore (s.data.map (fun c => if c = '-' then '+' else if c = '_' then '/' else c))

/-- Map a standard base64 character to its URL-safe variant. -/
def urlSafeChar (c : Char) : Char :=
  if c = '+' then '-' else if c = '/' then '_' else c

/-- Modelled from the spec: base64FromArrayBuffer (utils.ts, not under src/)
encodes bytes as base64; with the URL-safe flag it uses the URL-safe
alphabet and strips '=' padding. -/
def base64FromArrayBuffer (bs : List Nat) (urlSafe : Bool) : String :=
  let cs := b64EncodeCore bs
  if urlSafe then ⟨(cs.filter (fun c => c ≠ '=')).map urlSafeChar⟩ else ⟨cs⟩

/-- The JavaScript atob built-in: decode standard base64 into the string of
the decoded bytes, one character per byte. -/
def atobString (s : String) : String :=
  ⟨(b64DecodeCore s.data).map Char.ofNat⟩

/-- Byte codes of a string's characters (the sources only ever pass ASCII
JSON text through this path). -/
def strBytes (s : String) : List Nat := s.data.map Char.toNat

/- ===== ECDSA signature parsing and low-S normalization ===== -/

/-- Order of the P-256 (secp256r1) curve group. -/
def p256Order : Nat :=
  0xffffffff00000000ffffffffffffffffbce6faada7179e84f3b9cac2fc632551

/-- Parse a DER-encoded ECDSA signature (SEQUENCE of two INTEGERs, short
form) into the raw (r, s) pair, without range validation. -/
def parseDERSigRaw (b : List Nat) : Option (Nat × Nat) :=
  match b with
  | 0x30 :: len :: 0x02 :: rlen :: rest =>
    if rest.length < rlen then none
    else
      let rBytes := rest.take rlen
      match rest.drop rlen with
      | 0x02 :: slen :: rest2 =>
        if rest2.length = slen && len = 4 + rlen + slen then
          some (rBytes.foldl (fun a x => a * 256 + x) 0,
                rest2.foldl (fun a x => a * 256 + x) 0)
        else none
      | _ => none
  | _ => none

/-- Parse a DER-encoded ECDSA signature and validate that both components
lie in [1, p256Order), as the curve library enforces. -/
def parseDERSig (b : List Nat) : Option (Nat × Nat) :=
  match parseDERSigRaw b with
  | some (r, s) =>
    if 0 < r && r < p256Order && 0 < s && s < p256Order then some (r, s) else none
  | none => none

/-- Modelled from the spec: parseAndNormalizeSig (utils.ts, not under src/)
parses a 0x-prefixed hex DER ECDSA signature into (r, s) and applies low-S
normalization: if s is greater than half the curve order it is replaced by
p256Order - s. -/
def parseAndNormalizeSig (sigHex : String) : Option (Nat × Nat) :=
  (parseDERSig (hexStringToUint8Array sigHex)).map
    (fun rs => (rs.1, if p256Order / 2 < rs.2 then p256Order - rs.2 else rs.2))

/- ===== credential acquisition (toWebAuthnKey.ts) ===== -/

/-- Observable external effects of the bridge: an HTTP POST to the passkey
server, or one invocation of the platform authenticator. -/
inductive NetEffect where
  | post (url : String)
  | authenticatorCall
deriving DecidableEq

/-- Ceremony mode, as in the WebAuthnMode enum of toWebAuthnKey.ts. -/
inductive WebAuthnMode where
  | register
  | login
deriving DecidableEq

/-- The WebAuthnKey record of toWebAuthnKey.ts. -/
structure WebAuthnKeyM where
  pubX : Nat
  pubY : Nat
  credId : String
  authenticatorIdHash : String
deriving DecidableEq

/-- Result of a successful ceremony, as returned by
loginOrRegisterWithWebAuthn. -/
structure CeremonyResult where
  publicKeyX : String
  publicKeyY : String
  credId : String
deriving DecidableEq

/-- Body of a /api/auth/complete response; absent JSON fields are none. -/
structure AuthCompleteResponse where
  accessToken : Option String
  publicKeyX : Option String
  publicKeyY : Option String
deriving DecidableEq

/-- Body of a /api/users/register/complete response; verified holds the
JavaScript truthiness of the verified field. -/
structure RegisterCompleteResponse where
  verified : Bool
  publicKeyX : Option String
  publicKeyY : Option String
deriving DecidableEq

/-- The behavior of the external collaborators during one ceremony: what
the passkey server answers on the complete endpoints and which credential
id the platform authenticator reports. -/
structure ServerEnv where
  loginVerifyResult : Option AuthCompleteResponse
  registerVerifyResult : Option RegisterCompleteResponse
  loginCredentialId : String
  registerCredentialId : String
deriving DecidableEq

/-- Errors raised by the ceremony driver in toWebAuthnKey.ts. -/
inductive CeremonyError where
  | loginNotVerified
  | registrationNotVerified
  | missingPublicKey
  | missingCredentialId
  | jsTypeError
deriving DecidableEq

/-- JavaScript truthiness of an optional string field: absent and empty
strings are falsy. -/
def jsTruthyStr : Option String → Bool
  | none => false
  | some s => !s.data.isEmpty

/-- The JavaScript BigInt constructor on a numeric string: 0x-prefixed
input is read as hex, otherwise as decimal. -/
def bigIntOfString (s : String) : Nat :=
  match s.data with
  | '0' :: 'x' :: rest => rest.foldl (fun a c => a * 16 + hexCharVal c) 0
  | l => l.foldl (fun a c => a * 10 + (c.toNat - 48)) 0

/-- Network calls performed by a login ceremony, in order. -/
def loginCeremonyCalls (passkeyServerUrl : String) : List NetEffect :=
  [.post (passkeyServerUrl ++ "/api/auth/start"), .authenticatorCall,
   .post (passkeyServerUrl ++ "/api/auth/complete")]

/-- Network calls performed by a registration ceremony, in order. -/
def registerCeremonyCalls (passkeyServerUrl : String) : List NetEffect :=
  [.post (passkeyServerUrl ++ "/api/users/register/start"), .authenticatorCall,
   .post (passkeyServerUrl ++ "/api/users/register/complete")]

/-- Common tail of both ceremony branches: reject missing public key
coordinates, then a missing credential id, else build the result
(toWebAuthnKey.ts lines 119-125). -/
def finishCeremony (pX pY : Option String) (credId : String) :
    Except CeremonyError CeremonyResult :=
  if !jsTruthyStr pX || !jsTruthyStr pY then .error .missingPublicKey
  else if credId.data.isEmpty then .error .missingCredentialId
  else .ok ⟨pX.getD "", pY.getD "", credId⟩

/-- The loginOrRegisterWithWebAuthn ceremony driver of toWebAuthnKey.ts,
with the server and authenticator behavior passed in as data and the
performed external calls returned alongside the result. -/
def loginOrRegisterWithWebAuthn (passkeyName passkeyServerUrl : String)
    (mode : WebAuthnMode) (env : ServerEnv) :
    Except CeremonyError CeremonyResult × List NetEffect :=
  match mode with
  | .login =>
    let effs := loginCeremonyCalls passkeyServerUrl
    match env.loginVerifyResult with
    | none => (.error .loginNotVerified, effs)
    | some r =>
      if !jsTruthyStr r.accessToken then (.error .loginNotVerified, effs)
      else (finishCeremony r.publicKeyX r.publicKeyY env.loginCredentialId, effs)
  | .register =>
    let effs := registerCeremonyCalls passkeyServerUrl
    match env.registerVerifyResult with
    | none => (.error .jsTypeError, effs)
    | some r =>
      if !r.verified then (.error .registrationNotVerified, effs)
      else (finishCeremony r.publicKeyX r.publicKeyY env.registerCredentialId, effs)

/-- The authenticator-id hash computed by toWebAuthnKey.ts: the hash of the
hex rendering of the base64url-decoded credential id. The hash itself
(keccak256 from the viem library, an external collaborator) is passed in
as a function. -/
def authenticatorIdHashOf (keccak : String → String) (credId : String) : String :=
  keccak (uint8ArrayToHexString (b64ToBytes credId))

/-- The toWebAuthnKey entry point of toWebAuthnKey.ts: a supplied
webAuthnKey is returned unchanged with no external calls; otherwise a
ceremony is run and its result is packaged into a WebAuthnKey. -/
def toWebAuthnKey (keccak : String → String) (passkeyName passkeyServerUrl : String)
    (webAuthnKey : Option WebAuthnKeyM) (mode : WebAuthnMode) (env : ServerEnv) :
    Except CeremonyError WebAuthnKeyM × List NetEffect :=
  match webAuthnKey with
  | some k => (.ok k, [])
  | none =>
    let res := loginOrRegisterWithWebAuthn passkeyName passkeyServerUrl mode env
    (res.1.map fun c =>
      ⟨bigIntOfString c.publicKeyX, bigIntOfString c.publicKeyY, c.credId,
       authenticatorIdHashOf keccak c.credId⟩, res.2)

/- ===== signature codec (toPasskeyValidator.ts) ===== -/

/-- The viem SignableMessage shapes: a plain string, an object whose raw
field is a hex string, an object whose raw field is a byte array, or any
other (unsupported) shape. -/
inductive SignableMessage where
  | plain (s : String)
  | rawHex (s : String)
  | rawBytes (bs : List Nat)
  | other
deriving DecidableEq

/-- Decimal digit characters of a number, most significant first, as
JavaScript Number.prototype.toString renders it. digitsFuelRev is
little-endian with an explicit structural fuel. -/
def digitsFuelRev : Nat → Nat → List Nat
  | 0, _ => []
  | _ + 1, 0 => []
  | fuel + 1, n + 1 => (n + 1) % 10 :: digitsFuelRev fuel ((n + 1) / 10)

/-- Little-endian decimal digits of a number. -/
def natDigits (n : Nat) : List Nat := digitsFuelRev n n

/-- Character of one decimal digit. -/
def digChar (d : Nat) : Char := Char.ofNat (48 + d)

/-- Decimal rendering of a number, most significant digit first. -/
def natToDecChars (n : Nat) : List Char :=
  if n = 0 then ['0'] else ((natDigits n).map digChar).reverse

/-- Join character chunks with ',' separators, as Array.prototype.join
does. -/
def commaJoin : List (List Char) → List Char
  | [] => []
  | [x] => x
  | x :: y :: rest => x ++ ',' :: commaJoin (y :: rest)

/-- JavaScript Uint8Array.prototype.toString: the comma-separated decimal
rendering of the elements. -/
def uint8ArrayJsToString (bs : List Nat) : String :=
  ⟨commaJoin (bs.map natToDecChars)⟩

/-- Message-content normalization of signMessageUsingWebAuthn
(toPasskeyValidator.ts lines 49-61): a plain string or a raw hex string is
taken as is, a raw byte array is stringified with its JavaScript toString,
and any other shape throws (none). -/
def messageContent : SignableMessage → Option String
  | .plain s => some s
  | .rawHex s => some s
  | .rawBytes bs => some (uint8ArrayJsToString bs)
  | .other => none

/-- WebAuthn assertion options built by signMessageUsingWebAuthn. -/
structure AssertionOptions where
  challenge : String
  allowCredentials : List (String × String)
  userVerification : String
deriving DecidableEq

/-- The assertion returned by the authenticator: base64 fields of an
AuthenticationResponseJSON response. -/
structure AssertionResponseModel where
  authenticatorData : String
  clientDataJSON : String
  signature : String
deriving DecidableEq

/-- Errors of the signature codec path. -/
inductive CodecError where
  | typeMismatch
  | typeFieldNotFound
  | signatureParseFailed
deriving DecidableEq

/-- Assertion-option construction of signMessageUsingWebAuthn
(toPasskeyValidator.ts lines 63-79): strip a 0x prefix from the message
content, base64url-encode its hex decoding as the challenge, and require
user verification. -/
def buildAssertionOptions (message : SignableMessage)
    (allowCredentials : List (String × String)) : Option AssertionOptions :=
  (messageContent message).map fun mc =>
    ⟨base64FromArrayBuffer (hexStringToUint8Array (strip0x mc)) true,
     allowCredentials, "required"⟩

/-- Check whether the first list is an initial segment of the second. -/
def isPfx : List Char → List Char → Bool
  | [], _ => true
  | _ :: _, [] => false
  | a :: as, b :: bs => a = b && isPfx as bs

/-- Index of the first occurrence of a pattern in a text, scanning from a
start index. -/
def findSubstrFrom (pat : List Char) : List Char → Nat → Option Nat
  | [], i => if pat.isEmpty then some i else none
  | c :: cs, i => if isPfx pat (c :: cs) then some i else findSubstrFrom pat cs (i + 1)

/-- Index of the first occurrence of a pattern in a text. -/
def findSubstr (pat text : List Char) : Option Nat := findSubstrFrom pat text 0

/-- The characters of the quoted type key in client-data JSON. -/
def typeKeyPattern : List Char := ['"', 't', 'y', 'p', 'e', '"']

/-- Modelled from the spec: findQuoteIndices (utils.ts, not under src/)
locates the byte offset immediately preceding the quoted type field in the
literal client-data JSON text (0 for the fixture whose type field follows
the opening brace); not finding the field is fatal. -/
def findQuoteIndices (clientDataJSON : String) : Option Nat :=
  (findSubstr typeKeyPattern clientDataJSON.data).map (fun i => i - 1)

/-- Modelled from the spec: the static allow-list of chain ids with a
native P-256 verification precompile (RIP-7212). -/
def RIP7212SupportedNetworks : List Nat := [137, 80001]

/-- Modelled from the spec: isRIP7212SupportedNetwork (utils.ts, not under
src/) tests membership of the chain id in the static allow-list. -/
def isRIP7212SupportedNetwork (chainId : Nat) : Bool :=
  RIP7212SupportedNetworks.contains chainId

/-- The ordered ABI tuple produced by the signature codec. -/
structure SigTuple where
  authenticatorData : List Nat
  clientDataJSON : String
  responseTypeLocation : Nat
  r : Nat
  s : Nat
  usePrecompiled : Bool
deriving DecidableEq

/-- One big-endian 32-byte ABI word of a uint256 value. -/
def abiWord (n : Nat) : List Nat :=
  (List.range 32).map fun i => n % 2 ^ 256 / 2 ^ ((31 - i) * 8) % 256

/-- Right-pad a byte list with zeros to a multiple of 32 bytes. -/
def padTo32 (bs : List Nat) : List Nat :=
  bs ++ List.replicate ((32 - bs.length % 32) % 32) 0

/-- ABI encoding of the tuple (bytes authenticatorData, string
clientDataJSON, uint256 responseTypeLocation, uint256 r, uint256 s, bool
usePrecompiled), as the viem encodeAbiParameters call in
toPasskeyValidator.ts produces: six head words (with offsets for the two
dynamic components) followed by the length-prefixed padded dynamic data. -/
def abiEncodeSigTuple (t : SigTuple) : List Nat :=
  let ad := t.authenticatorData
  let cd := strBytes t.clientDataJSON
  abiWord 192 ++ abiWord (224 + (padTo32 ad).length) ++
  abiWord t.responseTypeLocation ++ abiWord t.r ++ abiWord t.s ++
  abiWord (if t.usePrecompiled then 1 else 0) ++
  abiWord ad.length ++ padTo32 ad ++ abiWord cd.length ++ padTo32 cd

/-- Assertion-to-tuple conversion of signMessageUsingWebAuthn
(toPasskeyValidator.ts lines 90-125): decode authenticator data, take the
literal base64-decoded client-data JSON text, locate the type field,
parse and normalize the signature, and test the precompile allow-list. -/
def encodeAssertionTuple (chainId : Nat) (cred : AssertionResponseModel) :
    Except CodecError SigTuple :=
  let authenticatorDataHex := uint8ArrayToHexString (b64ToBytes cred.authenticatorData)
  let clientDataJSON := atobString cred.clientDataJSON
  match findQuoteIndices clientDataJSON with
  | none => .error .typeFieldNotFound
  | some beforeType =>
    match parseAndNormalizeSig (uint8ArrayToHexString (b64ToBytes cred.signature)) with
    | none => .error .signatureParseFailed
    | some rs =>
      .ok ⟨hexStringToUint8Array authenticatorDataHex, clientDataJSON, beforeType,
           rs.1, rs.2, isRIP7212SupportedNetwork chainId⟩

/-- The signMessageUsingWebAuthn function of toPasskeyValidator.ts, with
the authenticator passed in as a function and the performed external calls
returned alongside the result. An unsupported message shape fails before
the authenticator is invoked. -/
def signMessageUsingWebAuthn (message : SignableMessage) (chainId : Nat)
    (allowCredentials : List (String × String))
    (authenticator : AssertionOptions → AssertionResponseModel) :
    Except CodecError (List Nat) × List NetEffect :=
  match buildAssertionOptions message allowCredentials with
  | none => (.error .typeMismatch, [])
  | some opts =>
    match encodeAssertionTuple chainId (authenticator opts) with
    | .error e => (.error e, [.authenticatorCall])
    | .ok tup => (.ok (abiEncodeSigTuple tup), [.authenticatorCall])

/- ===== serialized validator configuration ===== -/

/-- The validator configuration round-tripped by serialization
(the argument record of serializePasskeyValidatorData in
toPasskeyValidator.ts). -/
structure PasskeyValidatorData where
  passkeyServerUrl : String
  credentials : String
  entryPoint : String
  validatorAddress : String
  pubKeyX : Nat
  pubKeyY : Nat
  credId : String
  authenticatorIdHash : String
deriving DecidableEq

/-- Value of one decimal digit character. -/
def digitVal (c : Char) : Nat := c.toNat - 48

/-- Value of a little-endian list of decimal digit characters. -/
def lDigitsVal : List Char → Nat
  | [] => 0
  | c :: cs => digitVal c + 10 * lDigitsVal cs

/-- Encode a number as its little-endian decimal digits followed by a ':'
terminator. -/
def encNat (n : Nat) : List Char := (natDigits n).map digChar ++ [':']

/-- Split a character list at its first ':'. -/
def splitColon : List Char → Option (List Char × List Char)
  | [] => none
  | c :: cs =>
    if c = ':' then some ([], cs)
    else (splitColon cs).map fun p => (c :: p.1, p.2)

/-- Decode one ':'-terminated number, returning it with the remaining
input. -/
def decNat (l : List Char) : Option (Nat × List Char) :=
  (splitColon l).map fun p => (lDigitsVal p.1, p.2)

/-- Encode a string as its length followed by its characters. -/
def encStr (s : String) : List Char := encNat s.data.length ++ s.data

/-- Decode one length-prefixed string, returning it with the remaining
input. -/
def decStr (l : List Char) : Option (String × List Char) :=
  match decNat l with
  | none => none
  | some (n, rest) =>
    if n ≤ rest.length then some (⟨rest.take n⟩, rest.drop n) else none

/-- Modelled from the spec: serializePasskeyValidatorData (utils.ts, not
under src/); the spec fixes only that serialization round-trips the
adapter configuration, so a simple injective length-prefixed field
encoding is used. -/
def serializePasskeyValidatorData (d : PasskeyValidatorData) : String :=
  ⟨encStr d.passkeyServerUrl ++ (encStr d.credentials ++ (encStr d.entryPoint ++
   (encStr d.validatorAddress ++ (encNat d.pubKeyX ++ (encNat d.pubKeyY ++
   (encStr d.credId ++ encStr d.authenticatorIdHash))))))⟩

/-- Modelled from the spec: deserializePasskeyValidatorData (utils.ts, not
under src/), the inverse of serializePasskeyValidatorData. -/
def deserializePasskeyValidatorData (s : String) : Option PasskeyValidatorData := do
  let (passkeyServerUrl, r1) ← decStr s.data
  let (credentials, r2) ← decStr r1
  let (entryPoint, r3) ← decStr r2
  let (validatorAddress, r4) ← decStr r3
  let (pubKeyX, r5) ← decNat r4
  let (pubKeyY, r6) ← decNat r5
  let (credId, r7) ← decStr r6
  let (authenticatorIdHash, r8) ← decStr r7
  if r8.isEmpty then
    some ⟨passkeyServerUrl, credentials, entryPoint, validatorAddress,
          pubKeyX, pubKeyY, credId, authenticatorIdHash⟩
  else none

/- ===== signer adapter (toPasskeyValidator.ts) ===== -/

/-- Modelled from the spec: getValidatorAddress (utils.ts, not under src/)
supplies the default on-chain validator address for an entry point; the
claims under verification are insensitive to its value. -/
def getValidatorAddress (entryPointAddress : String) : String :=
  "0x" ++ entryPointAddress

/-- Errors raised by the signer adapter itself. -/
inductive AdapterError where
  | signTransactionNotSupported
deriving DecidableEq

/-- Hex bytes of the fixed dummy authenticator data
(toPasskeyValidator.ts lines 267 and 438). -/
def dummyAuthenticatorDataHex : String :=
  "0x49960de5880e8c687434170f6476605b8fe4aeb9a28632c7995cf3ba831d97631d00000000"

/-- The fixed dummy client-data JSON text (toPasskeyValidator.ts lines 268
and 439). -/
def dummyClientDataJSON : String :=
  "\x7b\"type\":\"webauthn.get\",\"challenge\":\"tbxXNFS9X_4Byr1cMwqKrIGB-_30a0QhZ6y7ucM0BOE\",\"origin\":\"http://localhost:3000\",\"crossOrigin\":false\x7d"

/-- The fixed dummy signature r value. -/
def dummyR : Nat :=
  44941127272049826721201904734628716258498742255959991581049806490182030242267

/-- The fixed dummy signature s value. -/
def dummyS : Nat :=
  9910254599581058084911561569808925251374718953855182016200087235935345969636

/-- The dummy signature tuple of toPasskeyValidator (responseTypeLocation
0, lines 256-279). -/
def createDummyTuple : SigTuple :=
  ⟨hexStringToUint8Array dummyAuthenticatorDataHex, dummyClientDataJSON, 0,
   dummyR, dummyS, false⟩

/-- The dummy signature tuple of deserializePasskeyValidator
(responseTypeLocation 1, lines 427-450). -/
def deserializedDummyTuple : SigTuple :=
  ⟨hexStringToUint8Array dummyAuthenticatorDataHex, dummyClientDataJSON, 1,
   dummyR, dummyS, false⟩

/-- Truncate or zero-pad a byte list to exactly 32 bytes (ABI bytes32). -/
def bytes32Of (bs : List Nat) : List Nat :=
  (bs ++ List.replicate 32 0).take 32

/-- ABI encoding of the enable data ((uint256 x, uint256 y), bytes32
authenticatorIdHash): three static words. -/
def abiEncodeEnableData (x y : Nat) (authenticatorIdHash : String) : List Nat :=
  abiWord x ++ abiWord y ++ bytes32Of (hexStringToUint8Array authenticatorIdHash)

/-- A constructed validator instance: the data its operations are built
from. -/
structure ValidatorModel where
  address : String
  chainId : Nat
  credId : String
  dummyTuple : SigTuple
  enableData : List Nat
  storedData : PasskeyValidatorData
deriving DecidableEq

/-- The getDummySignature operation: the fixed ABI-encoded dummy tuple. -/
def ValidatorModel.getDummySignature (v : ValidatorModel) : List Nat :=
  abiEncodeSigTuple v.dummyTuple

/-- The getEnableData operation. -/
def ValidatorModel.getEnableData (v : ValidatorModel) : List Nat := v.enableData

/-- The getSerializedData operation. -/
def ValidatorModel.getSerializedData (v : ValidatorModel) : String :=
  serializePasskeyValidatorData v.storedData

/-- The signTransaction operation: both constructors install a handler that
throws SignTransactionNotSupportedBySmartAccount immediately, performing
no external call (toPasskeyValidator.ts lines 173-175 and 349-351). -/
def ValidatorModel.signTransaction (_v : ValidatorModel) (_tx : String) :
    Except AdapterError String × List NetEffect :=
  (.error .signTransactionNotSupported, [])

/-- The signMessage operation: delegate to signMessageUsingWebAuthn with
this adapter's one credential. -/
def ValidatorModel.signMessage (v : ValidatorModel) (message : SignableMessage)
    (authenticator : AssertionOptions → AssertionResponseModel) :
    Except CodecError (List Nat) × List NetEffect :=
  signMessageUsingWebAuthn message v.chainId [(v.credId, "public-key")] authenticator

/-- The named arguments of toPasskeyValidator. -/
structure CreateParams where
  webAuthnKey : WebAuthnKeyM
  passkeyServerUrl : String
  entryPoint : String
  validatorAddress : Option String
  credentials : String
deriving DecidableEq

/-- The toPasskeyValidator constructor (toPasskeyValidator.ts lines
129-301): default the validator address, cache the chain id, and build the
adapter. -/
def toPasskeyValidatorModel (chainId : Nat) (p : CreateParams) : ValidatorModel :=
  let vAddr := p.validatorAddress.getD (getValidatorAddress p.entryPoint)
  { address := vAddr
    chainId := chainId
    credId := p.webAuthnKey.credId
    dummyTuple := createDummyTuple
    enableData := abiEncodeEnableData p.webAuthnKey.pubX p.webAuthnKey.pubY
      p.webAuthnKey.authenticatorIdHash
    storedData := ⟨p.passkeyServerUrl, p.credentials, p.entryPoint, vAddr,
      p.webAuthnKey.pubX, p.webAuthnKey.pubY, p.webAuthnKey.credId,
      p.webAuthnKey.authenticatorIdHash⟩ }

/-- The deserializePasskeyValidator constructor (toPasskeyValidator.ts
lines 303-471): decode the serialized configuration and rebuild the
adapter from it. -/
def deserializePasskeyValidatorModel (chainId : Nat) (serializedData : String) :
    Option ValidatorModel :=
  (deserializePasskeyValidatorData serializedData).map fun d =>
    { address := d.validatorAddress
      chainId := chainId
      credId := d.credId
      dummyTuple := deserializedDummyTuple
      enableData := abiEncodeEnableData d.pubKeyX d.pubKeyY d.authenticatorIdHash
      storedData := d }

/- ===== concrete fixtures used by witnesses and counterexamples ===== -/

/-- A concrete validator configuration. -/
def data0 : PasskeyValidatorData := ⟨"u", "include", "e", "0xv", 3, 4, "c", "0xab"⟩

/-- The validator reconstructed from the serialization of data0. -/
def val0 : ValidatorModel :=
  ⟨"0xv", 1, "c", deserializedDummyTuple, abiEncodeEnableData 3 4 "0xab", data0⟩

/-- A concrete WebAuthn key. -/
def key0 : WebAuthnKeyM := ⟨3, 4, "c", "0xab"⟩

/-- Concrete toPasskeyValidator arguments matching data0. -/
def params0 : CreateParams := ⟨key0, "u", "e", some "0xv", "include"⟩

/-- A login environment whose complete response carries no access token. -/
def envLoginNoToken : ServerEnv := ⟨some ⟨none, some "0x1", some "0x2"⟩, none, "abc", ""⟩

/-- A login environment with a verified response. -/
def envLoginOk : ServerEnv := ⟨some ⟨some "t", some "0x1", some "0x2"⟩, none, "abc", ""⟩

/-- A registration environment whose complete response is not verified. -/
def envRegNotVerified : ServerEnv := ⟨none, some ⟨false, some "0x1", some "0x2"⟩, "", "rc"⟩

/-- A registration environment verified but missing a public key coordinate. -/
def envRegMissingKey : ServerEnv := ⟨none, some ⟨true, none, some "0x2"⟩, "", "rc"⟩

/-- A login environment verified but missing a public key coordinate. -/
def envLoginMissingKey : ServerEnv := ⟨some ⟨some "t", none, some "0x2"⟩, none, "abc", ""⟩

/-- The client-data JSON text of the concrete assertion fixture. -/
def clientData0 : String := "\x7b\"type\":\"webauthn.get\"\x7d"

/-- A concrete assertion: authenticator data byte 0x01, client-data JSON
clientData0, and a DER signature with r = s = 1. -/
def cred0 : AssertionResponseModel :=
  ⟨base64FromArrayBuffer [1] false,
   base64FromArrayBuffer (strBytes clientData0) false,
   base64FromArrayBuffer [0x30, 6, 2, 1, 1, 2, 1, 1] false⟩

/-- The signature tuple produced for cred0 on a chain without the P-256
precompile. -/
def tup0 : SigTuple := ⟨[1], clientData0, 0, 1, 1, false⟩

/-- The allow-credentials list of the concrete adapter fixture. -/
def creds0 : List (String × String) := [("c", "public-key")]

/-- The assertion options built for the message "00" with creds0. -/
def opts0 : AssertionOptions := ⟨"AA", creds0, "required"⟩

/- ===== helper lemmas ===== -/

theorem digitVal_digChar {d : Nat} (hd : d < 10) : digitVal (digChar d) = d := by
  interval_cases d <;> decide

theorem digChar_ne_colon {d : Nat} (hd : d < 10) : digChar d ≠ ':' := by
  interval_cases d <;> decide

theorem digitsFuelRev_lt : ∀ fuel n d, d ∈ digitsFuelRev fuel n → d < 10 := by
  intro fuel
  induction fuel with
  | zero => intro n d h; simp [digitsFuelRev] at h
  | succ fuel ih =>
    intro n d h
    match n with
    | 0 => simp [digitsFuelRev] at h
    | m + 1 =>
      simp only [digitsFuelRev, List.mem_cons] at h
      rcases h with h | h
      · subst h; exact Nat.mod_lt _ (by omega)
      · exact ih _ _ h

theorem lDigitsVal_digitsFuelRev :
    ∀ fuel n, n ≤ fuel → lDigitsVal ((digitsFuelRev fuel n).map digChar) = n := by
  intro fuel
  induction fuel with
  | zero => intro n h; interval_cases n; simp [digitsFuelRev, lDigitsVal]
  | succ fuel ih =>
    intro n h
    match n with
    | 0 => simp [digitsFuelRev, lDigitsVal]
    | m + 1 =>
      have hdiv : (m + 1) / 10 ≤ fuel := by
        have : (m + 1) / 10 < m + 1 := Nat.div_lt_self (by omega) (by omega)
        omega
      simp only [digitsFuelRev, List.map_cons, lDigitsVal]
      rw [digitVal_digChar (Nat.mod_lt _ (by omega)), ih _ hdiv]
      omega

theorem lDigitsVal_natDigits (n : Nat) :
    lDigitsVal ((natDigits n).map digChar) = n :=
  lDigitsVal_digitsFuelRev n n (Nat.le_refl n)

theorem splitColon_append (xs : List Char) (r : List Char)
    (h : ∀ c ∈ xs, c ≠ ':') : splitColon (xs ++ ':' :: r) = some (xs, r) := by
  induction xs with
  | nil => simp [splitColon]
  | cons a as ih =>
    have ha : a ≠ ':' := h a (List.mem_cons_self a as)
    simp only [List.cons_append, splitColon, if_neg ha]
    have hrec := ih (fun c hc => h c (List.mem_cons_of_mem a hc))
    rw [show as.append (':' :: r) = as ++ ':' :: r from rfl, hrec]
    rfl

theorem decNat_encNat (n : Nat) (r : List Char) :
    decNat (encNat n ++ r) = some (n, r) := by
  have hchars : ∀ c ∈ (natDigits n).map digChar, c ≠ ':' := by
    intro c hc
    rcases List.mem_map.mp hc with ⟨d, hd, rfl⟩
    exact digChar_ne_colon (digitsFuelRev_lt n n d hd)
  have : encNat n ++ r = (natDigits n).map digChar ++ (':' :: r) := by
    simp [encNat]
  rw [this, decNat, splitColon_append _ _ hchars, Option.map_some']
  rw [lDigitsVal_natDigits]

theorem take_len_append (l r : List Char) : (l ++ r).take l.length = l := by
  induction l with
  | nil => simp
  | cons a as ih => simp [ih]

theorem drop_len_append (l r : List Char) : (l ++ r).drop l.length = r := by
  induction l with
  | nil => simp
  | cons a as ih => simp [ih]

theorem decStr_encStr (s : String) (r : List Char) :
    decStr (encStr s ++ r) = some (s, r) := by
  have hsplit : encStr s ++ r = encNat s.data.length ++ (s.data ++ r) := by
    simp [encStr]
  have hle : s.data.length ≤ (s.data ++ r).length := by
    simp
  rw [decStr, hsplit, decNat_encNat]
  simp only [if_pos hle, take_len_append, drop_len_append]

theorem decNat_encNat_nil (n : Nat) : decNat (encNat n) = some (n, []) := by
  have := decNat_encNat n []
  rwa [List.append_nil] at this

theorem decStr_encStr_nil (s : String) : decStr (encStr s) = some (s, []) := by
  have := decStr_encStr s []
  rwa [List.append_nil] at this

theorem passkeyDataRoundTrip (d : PasskeyValidatorData) :
    deserializePasskeyValidatorData (serializePasskeyValidatorData d) = some d := by
  show (do
    let (passkeyServerUrl, r1) ← decStr (serializePasskeyValidatorData d).data
    let (credentials, r2) ← decStr r1
    let (entryPoint, r3) ← decStr r2
    let (validatorAddress, r4) ← decStr r3
    let (pubKeyX, r5) ← decNat r4
    let (pubKeyY, r6) ← decNat r5
    let (credId, r7) ← decStr r6
    let (authenticatorIdHash, r8) ← decStr r7
    if r8.isEmpty then
      some (⟨passkeyServerUrl, credentials, entryPoint, validatorAddress,
            pubKeyX, pubKeyY, credId, authenticatorIdHash⟩ : PasskeyValidatorData)
    else none) = some d
  have hdata : (serializePasskeyValidatorData d).data =
      encStr d.passkeyServerUrl ++ (encStr d.credentials ++ (encStr d.entryPoint ++
      (encStr d.validatorAddress ++ (encNat d.pubKeyX ++ (encNat d.pubKeyY ++
      (encStr d.credId ++ encStr d.authenticatorIdHash)))))) := rfl
  rw [hdata]
  simp only [decStr_encStr, decNat_encNat, decStr_encStr_nil,
    Option.bind_eq_bind, Option.some_bind, List.isEmpty_nil, if_pos]

theorem parseDERSig_bounds {b : List Nat} {r s : Nat}
    (h : parseDERSig b = some (r, s)) :
    0 < r ∧ r < p256Order ∧ 0 < s ∧ s < p256Order := by
  unfold parseDERSig at h
  split at h
  · rename_i r0 s0 heq
    split at h
    · rename_i hc
      have hrs : r0 = r ∧ s0 = s := by
        have := Option.some.inj h
        exact ⟨congrArg Prod.fst this, congrArg Prod.snd this⟩
      simp only [Bool.and_eq_true, decide_eq_true_eq] at hc
      rcases hrs with ⟨hr, hs⟩
      subst hr; subst hs
      exact ⟨hc.1.1.1, hc.1.1.2, hc.1.2, hc.2⟩
    · exact absurd h (by simp)
  · exact absurd h (by simp)

/- ===== claim theorems ===== -/

/-- C1: in the signature codec path, whenever the parsed s exceeds half
the P-256 curve order the encoded s equals p256Order - s, an s at most
half the order is unchanged, and the s produced by parseAndNormalizeSig
is always at most p256Order / 2. -/
theorem parseAndNormalizeSig_lowS (sigHex : String) (r s : Nat)
    (h : parseAndNormalizeSig sigHex = some (r, s)) :
    s ≤ p256Order / 2 ∧
    ∀ r0 s0, parseDERSig (hexStringToUint8Array sigHex) = some (r0, s0) →
      r = r0 ∧ (p256Order / 2 < s0 → s = p256Order - s0) ∧
      (s0 ≤ p256Order / 2 → s = s0) := by
  unfold parseAndNormalizeSig at h
  rcases hp : parseDERSig (hexStringToUint8Array sigHex) with _ | ⟨r0, s0⟩
  · rw [hp] at h; exact absurd h (by simp)
  · rw [hp, Option.map_some'] at h
    have hpair := Option.some.inj h
    have hr : r0 = r := congrArg Prod.fst hpair
    have hs : (if p256Order / 2 < s0 then p256Order - s0 else s0) = s :=
      congrArg Prod.snd hpair
    have hbounds := parseDERSig_bounds hp
    have hhalf : p256Order / 2 * 2 + 1 = p256Order := by decide
    constructor
    · rw [← hs]
      by_cases hc : p256Order / 2 < s0
      · rw [if_pos hc]; omega
      · rw [if_neg hc]; omega
    · intro r1 s1 h1
      have hpair1 := Option.some.inj h1
      have hr1 : r0 = r1 := congrArg Prod.fst hpair1
      have hs1 : s0 = s1 := congrArg Prod.snd hpair1
      subst hr1; subst hs1
      refine ⟨hr.symm, ?_, ?_⟩
      · intro hc; rw [← hs, if_pos hc]
      · intro hc; rw [← hs, if_neg (by omega)]

/-- Witness for C1 at the concrete DER signature with r = s = 1. -/
theorem parseAndNormalizeSig_lowS_witness : (1 : Nat) ≤ p256Order / 2 :=
  (parseAndNormalizeSig_lowS "0x3006020101020101" 1 1 (by rfl)).1

/-- C2: every WebAuthnKey built by a toWebAuthnKey ceremony carries an
authenticatorIdHash equal to the fixed hash of the decoded bytes of its
own credential id; the hash is a pure function of the credential id, so it
is deterministic and never set independently of credId. -/
theorem toWebAuthnKey_authenticatorIdHash (keccak : String → String)
    (passkeyName passkeyServerUrl : String) (mode : WebAuthnMode) (env : ServerEnv)
    (k : WebAuthnKeyM) (effs : List NetEffect)
    (h : toWebAuthnKey keccak passkeyName passkeyServerUrl none mode env = (.ok k, effs)) :
    k.authenticatorIdHash = authenticatorIdHashOf keccak k.credId := by
  unfold toWebAuthnKey at h
  have h1 := congrArg Prod.fst h
  dsimp only at h1
  rcases hres : (loginOrRegisterWithWebAuthn passkeyName passkeyServerUrl mode env).1
    with e | c
  · rw [hres] at h1
    exact absurd h1 (by simp [Except.map])
  · rw [hres] at h1
    simp only [Except.map] at h1
    have hk := Except.ok.inj h1
    rw [← hk]

/-- Witness for C2 at a concrete verified login ceremony. -/
theorem toWebAuthnKey_authenticatorIdHash_witness :
    (⟨1, 2, "abc", "0x69b7"⟩ : WebAuthnKeyM).authenticatorIdHash =
      authenticatorIdHashOf (fun s => s) (⟨1, 2, "abc", "0x69b7"⟩ : WebAuthnKeyM).credId :=
  toWebAuthnKey_authenticatorIdHash (fun s => s) "n" "u" .login envLoginOk
    ⟨1, 2, "abc", "0x69b7"⟩ (loginCeremonyCalls "u") (by rfl)

/-- C10: when the optional webAuthnKey argument is supplied, toWebAuthnKey
returns exactly that key with no network request and no authenticator
invocation, regardless of mode, name, url and environment. -/
theorem toWebAuthnKey_passthrough (keccak : String → String)
    (passkeyName passkeyServerUrl : String) (k : WebAuthnKeyM)
    (mode : WebAuthnMode) (env : ServerEnv) :
    toWebAuthnKey keccak passkeyName passkeyServerUrl (some k) mode env = (.ok k, []) := rfl

/-- C9: deserializing the serialized data of any validator built by
toPasskeyValidator, against a client reporting the same chain id,
reconstructs a validator whose getEnableData output is byte-identical to
the original validator's. -/
theorem serialize_deserialize_roundTrip (chainId : Nat) (p : CreateParams) :
    ∃ v, deserializePasskeyValidatorModel chainId
        ((toPasskeyValidatorModel chainId p).getSerializedData) = some v ∧
      v.getEnableData = (toPasskeyValidatorModel chainId p).getEnableData := by
  have hd : deserializePasskeyValidatorData
      ((toPasskeyValidatorModel chainId p).getSerializedData) =
      some (toPasskeyValidatorModel chainId p).storedData :=
    passkeyDataRoundTrip _
  refine ⟨⟨(toPasskeyValidatorModel chainId p).storedData.validatorAddress, chainId,
    (toPasskeyValidatorModel chainId p).storedData.credId, deserializedDummyTuple,
    abiEncodeEnableData (toPasskeyValidatorModel chainId p).storedData.pubKeyX
      (toPasskeyValidatorModel chainId p).storedData.pubKeyY
      (toPasskeyValidatorModel chainId p).storedData.authenticatorIdHash,
    (toPasskeyValidatorModel chainId p).storedData⟩, ?_, ?_⟩
  · show (deserializePasskeyValidatorData _).map _ = some _
    rw [hd]
    rfl
  · rfl

/-- C8: on every validator instance, from either constructor,
signTransaction fails with the signing-mode-unsupported error immediately
and performs no network call and no authenticator invocation (its effect
list is empty). -/
theorem signTransaction_unsupported (chainId : Nat) (p : CreateParams) (tx : String) :
    (toPasskeyValidatorModel chainId p).signTransaction tx =
      (.error .signTransactionNotSupported, ([] : List NetEffect)) ∧
    ∀ s v, deserializePasskeyValidatorModel chainId s = some v →
      v.signTransaction tx = (.error .signTransactionNotSupported, ([] : List NetEffect)) :=
  ⟨rfl, fun _ _ _ => rfl⟩

/-- Witness for C8 on concrete instances from both constructors. -/
theorem signTransaction_unsupported_witness :
    (toPasskeyValidatorModel 1 params0).signTransaction "tx" =
      (.error .signTransactionNotSupported, ([] : List NetEffect)) ∧
    val0.signTransaction "tx" =
      (.error .signTransactionNotSupported, ([] : List NetEffect)) := by
  have h := signTransaction_unsupported 1 params0 "tx"
  exact ⟨h.1, h.2 (serializePasskeyValidatorData data0) val0 (by rfl)⟩

/-- C6: a login ceremony whose /api/auth/complete response is absent or
lacks a truthy accessToken fails with the login-not-verified error, both
in loginOrRegisterWithWebAuthn and propagated through toWebAuthnKey, so
no WebAuthnKey and no key material is returned. -/
theorem login_accessToken_missing (keccak : String → String)
    (passkeyName passkeyServerUrl : String) (env : ServerEnv)
    (h : (match env.loginVerifyResult with
          | none => true
          | some r => !jsTruthyStr r.accessToken) = true) :
    loginOrRegisterWithWebAuthn passkeyName passkeyServerUrl .login env =
      (.error .loginNotVerified, loginCeremonyCalls passkeyServerUrl) ∧
    toWebAuthnKey keccak passkeyName passkeyServerUrl none .login env =
      (.error .loginNotVerified, loginCeremonyCalls passkeyServerUrl) := by
  have h1 : loginOrRegisterWithWebAuthn passkeyName passkeyServerUrl .login env =
      (.error .loginNotVerified, loginCeremonyCalls passkeyServerUrl) := by
    unfold loginOrRegisterWithWebAuthn
    rcases henv : env.loginVerifyResult with _ | r
    · rfl
    · rw [henv] at h
      dsimp only
      rw [if_pos h]
  refine ⟨h1, ?_⟩
  show (let res := loginOrRegisterWithWebAuthn passkeyName passkeyServerUrl .login env
        ((Except.map _ res.1 : Except CeremonyError WebAuthnKeyM), res.2)) = _
  rw [h1]
  rfl

/-- Witness for C6 at a concrete token-less login response. -/
theorem login_accessToken_missing_witness :
    loginOrRegisterWithWebAuthn "n" "u" .login envLoginNoToken =
      (.error .loginNotVerified, loginCeremonyCalls "u") ∧
    toWebAuthnKey (fun s => s) "n" "u" none .login envLoginNoToken =
      (.error .loginNotVerified, loginCeremonyCalls "u") :=
  login_accessToken_missing (fun s => s) "n" "u" envLoginNoToken (by rfl)

/-- C7: an unverified register-complete response fails with the
registration-not-verified error, and in either mode a verified response
missing a public key coordinate fails with the missing-public-key error;
in each case only an error is returned, never partial key material. -/
theorem ceremony_verification_failures (passkeyName passkeyServerUrl : String)
    (env : ServerEnv) :
    (∀ r, env.registerVerifyResult = some r → r.verified = false →
      loginOrRegisterWithWebAuthn passkeyName passkeyServerUrl .register env =
        (.error .registrationNotVerified, registerCeremonyCalls passkeyServerUrl)) ∧
    (∀ r, env.registerVerifyResult = some r → r.verified = true →
      (!jsTruthyStr r.publicKeyX || !jsTruthyStr r.publicKeyY) = true →
      loginOrRegisterWithWebAuthn passkeyName passkeyServerUrl .register env =
        (.error .missingPublicKey, registerCeremonyCalls passkeyServerUrl)) ∧
    (∀ r, env.loginVerifyResult = some r → jsTruthyStr r.accessToken = true →
      (!jsTruthyStr r.publicKeyX || !jsTruthyStr r.publicKeyY) = true →
      loginOrRegisterWithWebAuthn passkeyName passkeyServerUrl .login env =
        (.error .missingPublicKey, loginCeremonyCalls passkeyServerUrl)) := by
  refine ⟨?_, ?_, ?_⟩
  · intro r hr hv
    unfold loginOrRegisterWithWebAuthn
    rw [hr]
    dsimp only
    rw [hv]
    rfl
  · intro r hr hv hk
    unfold loginOrRegisterWithWebAuthn
    rw [hr]
    dsimp only
    rw [hv]
    show (finishCeremony r.publicKeyX r.publicKeyY env.registerCredentialId, _) = _
    unfold finishCeremony
    rw [if_pos hk]
  · intro r hr ht hk
    unfold loginOrRegisterWithWebAuthn
    rw [hr]
    dsimp only
    rw [ht]
    show (finishCeremony r.publicKeyX r.publicKeyY env.loginCredentialId, _) = _
    unfold finishCeremony
    rw [if_pos hk]

/-- Witness for C7 at concrete failing responses of all three kinds. -/
theorem ceremony_verification_failures_witness :
    loginOrRegisterWithWebAuthn "n" "u" .register envRegNotVerified =
      (.error .registrationNotVerified, registerCeremonyCalls "u") ∧
    loginOrRegisterWithWebAuthn "n" "u" .register envRegMissingKey =
      (.error .missingPublicKey, registerCeremonyCalls "u") ∧
    loginOrRegisterWithWebAuthn "n" "u" .login envLoginMissingKey =
      (.error .missingPublicKey, loginCeremonyCalls "u") :=
  ⟨(ceremony_verification_failures "n" "u" envRegNotVerified).1 _ rfl rfl,
   (ceremony_verification_failures "n" "u" envRegMissingKey).2.1 _ rfl rfl (by rfl),
   (ceremony_verification_failures "n" "u" envLoginMissingKey).2.2 _ rfl rfl (by rfl)⟩

/-- C3 counterexample: it is not the case that every validator
reconstructed by deserializePasskeyValidator has a dummy-signature tuple
with responseTypeLocation 0; the instance rebuilt from the serialization
of data0 carries responseTypeLocation 1. -/
theorem getDummySignature_responseTypeLocation_cx :
    ¬ (∀ (chainId : Nat) (s : String) (v : ValidatorModel),
        deserializePasskeyValidatorModel chainId s = some v →
        v.dummyTuple.responseTypeLocation = 0) := by
  intro h
  exact absurd (h 1 (serializePasskeyValidatorData data0) val0 (by rfl)) (by decide)

/-- C3 (amended): every validator's getDummySignature output is the fixed
ABI-encoded dummy tuple, identical across calls and instances of the same
constructor; the responseTypeLocation component is 0 for instances built
by toPasskeyValidator and 1 for instances rebuilt by
deserializePasskeyValidator. -/
theorem getDummySignature_fixed (chainId : Nat) (p : CreateParams) :
    (toPasskeyValidatorModel chainId p).dummyTuple = createDummyTuple ∧
    createDummyTuple.responseTypeLocation = 0 ∧
    (toPasskeyValidatorModel chainId p).getDummySignature =
      abiEncodeSigTuple createDummyTuple ∧
    ∀ s v, deserializePasskeyValidatorModel chainId s = some v →
      v.dummyTuple = deserializedDummyTuple ∧
      deserializedDummyTuple.responseTypeLocation = 1 ∧
      v.getDummySignature = abiEncodeSigTuple deserializedDummyTuple := by
  refine ⟨rfl, rfl, rfl, ?_⟩
  intro s v h
  unfold deserializePasskeyValidatorModel at h
  rcases hd : deserializePasskeyValidatorData s with _ | d
  · rw [hd] at h
    exact absurd h (by simp)
  · rw [hd, Option.map_some'] at h
    have hv := Option.some.inj h
    rw [← hv]
    exact ⟨rfl, rfl, rfl⟩

/-- Witness for the amended C3 on concrete instances from both
constructors. -/
theorem getDummySignature_fixed_witness :
    (toPasskeyValidatorModel 1 params0).dummyTuple = createDummyTuple ∧
    val0.dummyTuple = deserializedDummyTuple := by
  have h := getDummySignature_fixed 1 params0
  exact ⟨h.1, (h.2.2.2 (serializePasskeyValidatorData data0) val0 (by rfl)).1⟩

/-- C4: evaluation at the failing input. A message whose raw field is the
byte array [1, 2] is normalized by the JavaScript toString to the
comma-separated decimal text "1,2", which is not a hex string, and the
challenge then built from it ("EA", the base64url of its hex decoding)
differs from the base64url encoding of the message bytes themselves
("AQI"). -/
theorem rawBytes_message_not_hex :
    messageContent (SignableMessage.rawBytes [1, 2]) = some "1,2" ∧
    isHexString "1,2" = false ∧
    (buildAssertionOptions (SignableMessage.rawBytes [1, 2]) creds0).map
      AssertionOptions.challenge = some "EA" ∧
    base64FromArrayBuffer [1, 2] true = "AQI" := by
  refine ⟨by rfl, by rfl, by rfl, by rfl⟩

/-- C5: for every successful assertion, signMessageUsingWebAuthn returns
exactly the ABI encoding of the ordered signature tuple, whose
clientDataJSON is the literal base64-decoded text of the assertion, whose
authenticatorData comes from the assertion's decoded bytes, whose (r, s)
are the parsed and normalized signature components, and whose
usePrecompiled flag is true exactly when the construction-time chain id is
in the static precompile allow-list. -/
theorem signMessageUsingWebAuthn_encoding
    (message : SignableMessage) (chainId : Nat) (creds : List (String × String))
    (authenticator : AssertionOptions → AssertionResponseModel)
    (opts : AssertionOptions) (tup : SigTuple)
    (h1 : buildAssertionOptions message creds = some opts)
    (h2 : encodeAssertionTuple chainId (authenticator opts) = .ok tup) :
    signMessageUsingWebAuthn message chainId creds authenticator =
      (.ok (abiEncodeSigTuple tup), [.authenticatorCall]) ∧
    tup.clientDataJSON = atobString (authenticator opts).clientDataJSON ∧
    tup.authenticatorData = hexStringToUint8Array
      (uint8ArrayToHexString (b64ToBytes (authenticator opts).authenticatorData)) ∧
    tup.usePrecompiled = RIP7212SupportedNetworks.contains chainId ∧
    ∀ r0 s0, parseAndNormalizeSig
        (uint8ArrayToHexString (b64ToBytes (authenticator opts).signature)) =
        some (r0, s0) →
      tup.r = r0 ∧ tup.s = s0 := by
  have hmain : signMessageUsingWebAuthn message chainId creds authenticator =
      (.ok (abiEncodeSigTuple tup), [.authenticatorCall]) := by
    simp only [signMessageUsingWebAuthn, h1, h2]
  refine ⟨hmain, ?_⟩
  simp only [encodeAssertionTuple] at h2
  split at h2
  · exact absurd h2 (by simp)
  · rename_i beforeType hfq
    split at h2
    · exact absurd h2 (by simp)
    · rename_i rs hsig
      have ht := Except.ok.inj h2
      rw [← ht]
      refine ⟨rfl, rfl, rfl, ?_⟩
      intro r0 s0 hp
      rw [hsig] at hp
      have hpr := Option.some.inj hp
      exact ⟨congrArg Prod.fst hpr, congrArg Prod.snd hpr⟩

/-- Witness for C5 at the concrete assertion cred0 on a chain without the
precompile. -/
theorem signMessageUsingWebAuthn_encoding_witness :
    signMessageUsingWebAuthn (SignableMessage.plain "00") 11155111 creds0
      (fun _ => cred0) = (.ok (abiEncodeSigTuple tup0), [.authenticatorCall]) :=
  (signMessageUsingWebAuthn_encoding (SignableMessage.plain "00") 11155111 creds0
    (fun _ => cred0) opts0 tup0 (by rfl) (by rfl)).1

end PasskeysDemo
